import Mathlib

/-
Verification development for the snake_bite repository.

The Python sources are embedded shallowly:
  * `predict.py` — `SnakePredictor.predict_image`: the post-softmax top-k
    selection and result formatting, with the probability vector made an
    explicit parameter, and the softmax itself over the reals;
  * `ai_analyzer.py` — `AIAnalyzer.clean_markdown_output` (the chain of regex
    substitutions, implemented as direct scanners for those fixed patterns),
    `get_user_location`, the prompt built by `analyze_snake_encounter`, and
    the values returned by the `except` clauses of `deepseek_chat`;
  * `snake_knowledge.py` — the knowledge table and its four read operations,
    written state-passing so that the absence of mutation is a theorem;
  * `app_4.py` — `update_location_manually` and `ai_deep_analysis` over an
    explicit global-state record.
-/

/-- The whitespace characters removed by Python's `str.strip` and matched by
the regex class `\s` (ASCII range, which covers every string this repository
manipulates). -/
def isPySpace (c : Char) : Bool :=
  c == ' ' || c == '\t' || c == '\n' || c == '\r' || c == '\x0b' || c == '\x0c'

/-- Python `str.strip` on a character list: drop whitespace from both ends. -/
def stripChars (l : List Char) : List Char :=
  ((l.dropWhile isPySpace).reverse.dropWhile isPySpace).reverse

/-- Python `str.strip`. -/
def pyStrip (s : String) : String := String.mk (stripChars s.toList)

/-- Python's substring test `needle in hay` on character lists. -/
def containsSub (needle : List Char) : List Char → Bool
  | [] => needle.isEmpty
  | c :: cs => needle.isPrefixOf (c :: cs) || containsSub needle cs

/-- Python `str.lower` (ASCII case folding; the identity on the Chinese text
of the knowledge base, as in CPython). -/
def pyLower (s : String) : String := String.mk (s.toList.map Char.toLower)

/-! ### `AIAnalyzer.clean_markdown_output` (ai_analyzer.py lines 31-71)

Each `re.sub` call of the source is a scanner over the character list.  Every
scanner carries a `fuel` argument that bounds its recursion depth; each step
consumes at least one input character, so `length + 1` fuel, which is what
`clean_markdown_output` supplies, is never exhausted. -/

/-- Pass 1: `re.sub(r'^#{1,6}\s*', '', text, flags=re.MULTILINE)`.
`atStart` records whether the scanner sits at a position where `^` matches
(string start or just after a newline).  On a match, up to six `#` and the
greedy whitespace run after them (newlines included, since `\s` matches them)
are deleted; scanning resumes at line start exactly when the last deleted
whitespace character was a newline. -/
def subHeading : ℕ → Bool → List Char → List Char
  | 0, _, l => l
  | _ + 1, _, [] => []
  | fuel + 1, atStart, c :: cs =>
    if atStart && c == '#' then
      let extra := min 5 (cs.takeWhile (fun d => d == '#')).length
      let afterHash := cs.drop extra
      let ws := afterHash.takeWhile isPySpace
      let rest := afterHash.drop ws.length
      subHeading fuel (ws.getLast? == some '\n') rest
    else
      c :: subHeading fuel (c == '\n') cs

/-- The lazy closing `**` for pass 2: returns the capture (which cannot
contain a newline, `.` not matching `\n`) and the remainder after the closing
marker, or `none` when the pattern cannot close at this position. -/
def findBoldClose : List Char → Option (List Char × List Char)
  | '*' :: '*' :: cs => some ([], cs)
  | '\n' :: _ => none
  | c :: cs => (findBoldClose cs).map (fun p => (c :: p.1, p.2))
  | [] => none

/-- Pass 2: `re.sub(r'\*\*(.*?)\*\*', r'\1', text)`.  When the pattern cannot
close, the engine retries at the next position, hence the one-character
fallback. -/
def subBold : ℕ → List Char → List Char
  | 0, l => l
  | _ + 1, [] => []
  | fuel + 1, '*' :: '*' :: cs =>
    (match findBoldClose cs with
     | some (cap, rest) => cap ++ subBold fuel rest
     | none => '*' :: subBold fuel ('*' :: cs))
  | fuel + 1, c :: cs => c :: subBold fuel cs

/-- The lazy closing single-character marker for passes 3 and 5; the capture
cannot contain a newline. -/
def findCloseChar (m : Char) : List Char → Option (List Char × List Char)
  | [] => none
  | c :: cs =>
    if c == m then some ([], cs)
    else if c == '\n' then none
    else (findCloseChar m cs).map (fun p => (c :: p.1, p.2))

/-- Passes 3 and 5: `re.sub(r'\*(.*?)\*', r'\1', text)` for `m = '*'` and
`` re.sub(r'`(.*?)`', r'\1', text) `` for `m` the backquote. -/
def subMarkChar (m : Char) : ℕ → List Char → List Char
  | 0, l => l
  | _ + 1, [] => []
  | fuel + 1, c :: cs =>
    if c == m then
      (match findCloseChar m cs with
       | some (cap, rest) => cap ++ subMarkChar m fuel rest
       | none => c :: subMarkChar m fuel cs)
    else c :: subMarkChar m fuel cs

/-- The lazy closing fence for pass 4 (DOTALL: the discarded capture may span
newlines): the remainder after the first closing fence, if any. -/
def findFenceClose : List Char → Option (List Char)
  | '`' :: '`' :: '`' :: cs => some cs
  | _ :: cs => findFenceClose cs
  | [] => none

/-- Pass 4: `re.sub(r'```.*?```', '', text, flags=re.DOTALL)`. -/
def subFence : ℕ → List Char → List Char
  | 0, l => l
  | _ + 1, [] => []
  | fuel + 1, '`' :: '`' :: '`' :: cs =>
    (match findFenceClose cs with
     | some rest => subFence fuel rest
     | none => '`' :: subFence fuel ('`' :: '`' :: cs))
  | fuel + 1, c :: cs => c :: subFence fuel cs

/-- Pass 6: `re.sub(r'\[([^\]]+)\]\([^\)]+\)', r'\1', text)`.  Both negated
classes match any character except their closer, newlines included, and both
runs must be nonempty. -/
def subLink : ℕ → List Char → List Char
  | 0, l => l
  | _ + 1, [] => []
  | fuel + 1, c :: cs =>
    if c == '[' then
      let txt := cs.takeWhile (fun d => !(d == ']'))
      (match cs.drop txt.length with
       | ']' :: '(' :: cs2 =>
         let url := cs2.takeWhile (fun d => !(d == ')'))
         (match cs2.drop url.length with
          | ')' :: rest =>
            if txt.isEmpty || url.isEmpty then c :: subLink fuel cs
            else txt ++ subLink fuel rest
          | _ => c :: subLink fuel cs)
       | _ => c :: subLink fuel cs)
    else c :: subLink fuel cs

/-- Pass 7: `re.sub(r'\n{3,}', '\n\n', text)` — collapse every run of three
or more newlines to exactly two. -/
def subBlankRuns : ℕ → List Char → List Char
  | 0, l => l
  | _ + 1, [] => []
  | fuel + 1, '\n' :: cs =>
    let run := cs.takeWhile (fun d => d == '\n')
    if 2 ≤ run.length then
      '\n' :: '\n' :: subBlankRuns fuel (cs.drop run.length)
    else '\n' :: subBlankRuns fuel cs
  | fuel + 1, c :: cs => c :: subBlankRuns fuel cs

/-- Python `text.split('\n')`. -/
def splitLines : List Char → List (List Char)
  | [] => [[]]
  | '\n' :: cs => [] :: splitLines cs
  | c :: cs =>
    match splitLines cs with
    | [] => [[c]]
    | a :: as => (c :: a) :: as

/-- Pass 8: `'\n'.join(line.strip() for line in text.split('\n'))`. -/
def stripEachLine (l : List Char) : List Char :=
  List.intercalate ['\n'] ((splitLines l).map stripChars)

/-- Embeds `AIAnalyzer.clean_markdown_output` (ai_analyzer.py lines 31-71): the
`if not text` early return followed by the eight substitution passes and the
final `strip`. -/
def clean_markdown_output (text : String) : String :=
  if text = "" then text
  else
    let l0 := text.toList
    let l1 := subHeading (l0.length + 1) true l0
    let l2 := subBold (l1.length + 1) l1
    let l3 := subMarkChar '*' (l2.length + 1) l2
    let l4 := subFence (l3.length + 1) l3
    let l5 := subMarkChar '`' (l4.length + 1) l4
    let l6 := subLink (l5.length + 1) l5
    let l7 := subBlankRuns (l6.length + 1) l6
    String.mk (stripChars (stripEachLine l7))

/-- The fixed sample string of `ai_analyzer.test_analyzer` (ai_analyzer.py
line 243), the "fixed sample string" of the specification. -/
def markdownSample : String :=
  "## 这是标题\n\n**这是粗体**内容\n\n*这是斜体*\n\n`代码`内容\n\n```\n代码块\n```\n\n[链接](http://example.com)"

/-! ### Failure-path values (predict.py lines 101-102, ai_analyzer.py lines
123-143, app_4.py lines 322-340) -/

/-- The shape of the value a function hands back on a failure path: a plain
string, or a dict with string keys and values. -/
inductive PyData where
  | pstr (s : String)
  | pdict (entries : List (String × String))
deriving DecidableEq

/-- What `SnakePredictor.predict_image` returns when its `except Exception`
clause fires (predict.py line 102): `{'image_path': image_path, 'error': str(e)}`. -/
def predict_image_except_result (image_path e : String) : PyData :=
  .pdict [("image_path", image_path), ("error", e)]

/-- Embeds `AIAnalyzer.deepseek_chat`, the `except requests.exceptions.RequestException`
clause (ai_analyzer.py line 139). -/
def deepseek_chat_reqexc_result (e : String) : PyData :=
  .pstr ("❌ 网络请求错误: " ++ e)

/-- Embeds `AIAnalyzer.deepseek_chat`, the `except json.JSONDecodeError` clause
(ai_analyzer.py line 141). -/
def deepseek_chat_jsonexc_result (e : String) : PyData :=
  .pstr ("❌ JSON解析错误: " ++ e)

/-- Embeds `AIAnalyzer.deepseek_chat`, the `except Exception` clause (ai_analyzer.py
line 143). -/
def deepseek_chat_exc_result (e : String) : PyData :=
  .pstr ("❌ 未知错误: " ++ e)

/-- Embeds `ai_deep_analysis`, the `except Exception` clause (app_4.py lines
322-340): the stripped f-string `error_message`. -/
def ai_deep_analysis_except_result (e : String) : PyData :=
  .pstr (pyStrip ("\n❌ 分析过程中出现错误\n\n错误信息：" ++ e ++
    "\n\n可能的解决方案：\n1. 检查网络连接是否正常\n2. 确认API服务是否可用\n3. 稍后重试分析功能\n\n如果问题持续存在，请联系技术支持。\n        "))

/-- A user-facing string prefixed with the error glyph `❌` — the shape that
claim C2 asserts for every failure-path value. -/
def IsGlyphStr : PyData → Prop
  | .pstr s => "❌".toList <+: s.toList
  | .pdict _ => False

/-! ### The softmax distribution (predict.py line 81) -/

/-- Embeds `F.softmax(outputs, dim=1)` on the real-valued score vector the forward
pass produces (predict.py line 81). -/
noncomputable def softmax (l : List ℝ) : List ℝ :=
  l.map (fun x => Real.exp x / (l.map Real.exp).sum)

/-! ### `SnakePredictor.predict_image` (predict.py lines 65-102) -/

/-- Pair each probability with its class index (its position in the softmax
output vector). -/
def indexed (i : ℕ) : List ℚ → List (ℕ × ℚ)
  | [] => []
  | q :: qs => (i, q) :: indexed (i + 1) qs

/-- Insert into a list sorted by descending probability, before the first
entry of smaller-or-equal probability, so that earlier (smaller-index) entries
stay first among ties — the order `torch.topk(..., sorted=True)` reports. -/
def insertDesc (x : ℕ × ℚ) : List (ℕ × ℚ) → List (ℕ × ℚ)
  | [] => [x]
  | y :: ys => if y.2 ≤ x.2 then x :: y :: ys else y :: insertDesc x ys

/-- Stable insertion sort by descending probability. -/
def sortDesc : List (ℕ × ℚ) → List (ℕ × ℚ)
  | [] => []
  | x :: xs => insertDesc x (sortDesc xs)

/-- Embeds `torch.topk(probabilities, top_k)` on the indexed probability vector:
the `top_k` largest entries, highest first. -/
def topkPairs (probs : List ℚ) (k : ℕ) : List (ℕ × ℚ) :=
  (sortDesc (indexed 0 probs)).take k

/-- Round to the nearest integer, ties to even — the rounding of Python's
fixed-point float formatting, idealized to exact rational arithmetic. -/
def roundHalfEven (q : ℚ) : ℤ :=
  let f := Rat.floor q
  let d := q - (f : ℚ)
  if d < 1/2 then f
  else if 1/2 < d then f + 1
  else if f % 2 = 0 then f else f + 1

/-- The `d` fractional digits of the scaled integer `m`, most significant
first. -/
def fracDigits (d : ℕ) (m : ℕ) : List Char :=
  (List.range d).reverse.map (fun i => Nat.digitChar (m / 10 ^ i % 10))

/-- Embeds Python fixed-point float formatting with `d` decimals at exact rational
precision. -/
def formatFixed (d : ℕ) (q : ℚ) : String :=
  let n := roundHalfEven (q * (10 : ℚ) ^ d)
  let m := n.natAbs
  ((if n < 0 then "-" else "") ++ toString (m / 10 ^ d)) ++ "." ++
    String.mk (fracDigits d m)

/-- Embeds the confidence percentage string — the probability times 100,
formatted to two decimals with a trailing percent sign (predict.py lines 92
and 97). -/
def pctString (q : ℚ) : String := formatFixed 2 (q * 100) ++ "%"

/-- One entry of `all_predictions`: `{'class': ..., 'confidence': ...}`. -/
structure Prediction where
  cls : String
  confidence : String
deriving DecidableEq

/-- The dict `predict_image` returns on its success path. -/
structure PredictResult where
  image_path : String
  top_prediction : Prediction
  all_predictions : List Prediction
deriving DecidableEq

/-- Build one prediction entry: `self.class_names[int(idx)]` paired with the
percentage string. -/
def mkPrediction (class_names : List String) (e : ℕ × ℚ) : Prediction :=
  ⟨class_names.getD e.1 "", pctString e.2⟩

/-- The success path of `SnakePredictor.predict_image` (predict.py lines
76-100) after the forward pass, the softmax probability vector over the class
dimension being the `probs` parameter: select the `top_k` highest entries and
format them. -/
def predict_image (class_names : List String) (image_path : String)
    (probs : List ℚ) (top_k : ℕ) : PredictResult :=
  let tops := topkPairs probs top_k
  { image_path := image_path
    top_prediction := mkPrediction class_names (tops.headD (0, 0))
    all_predictions := tops.map (mkPrediction class_names) }

/-- The property claim C1 asserts of a successful `predict_image` run:
`all_predictions` is exactly the `top_k` highest-probability entries of the
probability vector, in non-increasing probability order, each class label
paired with its probability as a two-decimal percentage string ending in `%`,
and `top_prediction` is the first element of that list. -/
def PredictSpec (class_names : List String) (image_path : String)
    (probs : List ℚ) (top_k : ℕ) : Prop :=
  let r := predict_image class_names image_path probs top_k
  let sorted := sortDesc (indexed 0 probs)
  r.all_predictions = (sorted.take top_k).map (mkPrediction class_names) ∧
  r.all_predictions.length = top_k ∧
  sorted.Perm (indexed 0 probs) ∧
  List.Pairwise (fun a b => b.2 ≤ a.2) sorted ∧
  (∀ a ∈ sorted.take top_k, ∀ b ∈ sorted.drop top_k, b.2 ≤ a.2) ∧
  (∀ e ∈ sorted.take top_k, probs.get? e.1 = some e.2) ∧
  (∀ p ∈ r.all_predictions, ∃ pre s2,
      p.confidence = pre ++ "." ++ s2 ++ "%" ∧ s2.length = 2) ∧
  (∃ hd tl, r.all_predictions = hd :: tl ∧ r.top_prediction = hd)

/-! ### `AIAnalyzer` prompt building (ai_analyzer.py lines 73-96, 145-203) -/

/-- The dict `AIAnalyzer.get_user_location` returns. -/
structure LocationInfo where
  location : String
  source : String
  details : String
deriving DecidableEq

/-- Embeds `AIAnalyzer.get_user_location` (ai_analyzer.py lines 73-96); `none` plays
`location_text=None`, and the empty string is falsy exactly like `None`. -/
def get_user_location (location_text : Option String) : LocationInfo :=
  match location_text with
  | some t =>
    if t = "" then
      { location := "未指定", source := "unknown"
        details := "请在分析文本中提供您的具体位置信息，以获得更准确的建议" }
    else
      { location := pyStrip t, source := "user_input"
        details := "用户指定位置: " ++ t }
  | none =>
    { location := "未指定", source := "unknown"
      details := "请在分析文本中提供您的具体位置信息，以获得更准确的建议" }

/-- The f-string `analysis_prompt` that `AIAnalyzer.analyze_snake_encounter`
builds (ai_analyzer.py lines 166-200) and then passes to `deepseek_chat`;
`location_info.get('location', ...)` and `location_info.get('details', ...)`
are the fields of the `LocationInfo` record. -/
def analysis_prompt (snake_species confidence user_description : String)
    (location_info : LocationInfo) (snake_knowledge : String) : String :=
  "\n你是一位专业的爬虫学专家和野生动物安全顾问。请基于以下信息提供详细的专业分析和建议：\n\n**AI识别结果：**\n- 蛇类种类：" ++
  snake_species ++ "\n- 识别置信度：" ++ confidence ++
  "\n\n**用户位置信息：**\n- 位置：" ++ location_info.location ++
  "\n- 详细信息：" ++ location_info.details ++
  "\n\n**用户描述和问题：**\n" ++ user_description ++
  "\n\n**蛇类基础知识：**\n" ++ snake_knowledge ++
  "\n\n请从以下几个方面提供专业分析：\n\n1. **识别结果评估**：基于用户描述验证AI识别的准确性，指出可能的误判风险\n\n2. **地域相关性分析**：结合用户位置分析该蛇类在当地的分布情况和常见程度\n\n3. **即时安全建议**：针对当前情况的紧急处理方案\n\n4. **行为预测**：基于环境和季节预测蛇的可能行为\n\n5. **预防措施**：针对该地区的长期预防建议\n\n6. **医疗建议**：如果是有毒蛇类，提供具体的医疗处理建议\n\n7. **生态价值**：说明该蛇类的生态作用和保护意义\n\n请用中文回答，语言专业但易懂，重点突出安全性建议。如果信息不足，请明确指出需要补充哪些信息以提供更准确的建议。请不要使用Markdown格式，直接用纯文本回答。\n"

/-! ### `SnakeKnowledge` (snake_knowledge.py lines 7-117) -/

/-- The record each species maps to: exactly the seven text fields of the
knowledge base. -/
structure SnakeInfo where
  description : String
  characteristics : String
  habitat : String
  safety : String
  behavior : String
  conservation : String
  tips : String
deriving DecidableEq

/-- Embeds `info.values()` in the dict's insertion order. -/
def infoValues (i : SnakeInfo) : List String :=
  [i.description, i.characteristics, i.habitat, i.safety, i.behavior,
   i.conservation, i.tips]

/-- The hard-coded `self.knowledge_base` dict (snake_knowledge.py lines
11-61), keys in insertion order. -/
def knowledge_base : List (String × SnakeInfo) :=
  [("北方水蛇",
    { description := "北方水蛇是一种常见的无毒蛇类，主要栖息在水域附近。身体适应水生环境，是优秀的游泳者。"
      characteristics := "身体较粗壮，体长通常在60-130厘米之间。体色多变，常见棕色、灰色或橄榄色，背部有深色横纹或斑块。腹部通常为黄色或红色，有黑色斑块。"
      habitat := "广泛分布于北美东部，喜欢生活在池塘、河流、湖泊、沼泽等水域周围。也会在水边的岩石或倒木上晒太阳。"
      safety := "✅ 无毒蛇类，对人类无害。虽然被咬后不会中毒，但仍需清洁伤口预防感染。性情相对温和，但受惊时会释放麝香味。"
      behavior := "主要在白天活动，是半水生蛇类。善于游泳和潜水，主要以鱼类、蛙类、蝌蚪和小型哺乳动物为食。冬季会冬眠。"
      conservation := "种群数量稳定，无特殊保护需求。"
      tips := "遇到时保持距离观察即可，不要突然移动惊吓它。" }),
   ("普通袜带蛇",
    { description := "普通袜带蛇是北美最常见的蛇类之一，因其身体上的条纹像袜带而得名。性情温和，适应性极强。"
      characteristics := "身体细长，体长通常在45-65厘米之间。最显著特征是身体上有三条纵向条纹：一条位于背部中央，两条位于两侧。条纹颜色通常为黄色、绿色或蓝色。"
      habitat := "适应性极强，几乎可以在任何环境中生存：草地、花园、森林边缘、公园、农田等。从海平面到山区都有分布。"
      safety := "✅ 无毒蛇类，性情非常温和，很少主动攻击人类。即使被咬也只需简单处理伤口。是对人类最友好的蛇类之一。"
      behavior := "主要在白天活动，行动敏捷。主要以蚯蚓、蛞蝓、小鱼、蛙类等为食。怀孕期约2-3个月，直接产仔而非产卵。"
      conservation := "种群数量非常稳定，分布广泛。"
      tips := "是花园的好朋友，能帮助控制害虫。如果在花园中发现，建议让其自然离开。" }),
   ("德凯棕蛇",
    { description := "德凯棕蛇是一种小型无毒蛇，因其棕色外观和德凯这位博物学家而得名。是城市环境中常见的蛇类。"
      characteristics := "体型较小，通常体长只有20-35厘米，是北美最小的蛇类之一。体色为棕色、灰棕色或红棕色，背部中央有浅色条纹，腹部为粉色或黄色。"
      habitat := "喜欢隐藏在落叶堆、石头下、花园覆盖物中或建筑物附近。在城市和郊区环境中很常见。"
      safety := "✅ 完全无毒，体型极小，对人类无任何威胁。性情温和，很少咬人，即使咬了也感觉不到。"
      behavior := "主要在夜间和黄昏活动，白天通常隐藏起来。行动相对缓慢，主要以蚯蚓、蛞蝓、小昆虫和其幼虫为食。"
      conservation := "种群稳定，但栖息地丧失是主要威胁。"
      tips := "是花园生态系统的重要组成部分，能有效控制土壤害虫。发现时请不要伤害。" }),
   ("黑鼠蛇",
    { description := "黑鼠蛇是一种大型无毒蛇类，是优秀的攀爬者和鼠类控制专家。成年后全身呈现亮黑色。"
      characteristics := "大型蛇类，成年体长可达1.2-2.5米。成年蛇通体黑色且有光泽，幼蛇为灰色并有深色斑纹。腹部为灰白色或黄色。身体强壮，鳞片光滑。"
      habitat := "栖息在森林、农田、谷仓、废弃建筑等地方。善于攀爬，经常在树上或建筑物的阁楼中发现。分布范围广泛。"
      safety := "✅ 无毒蛇类，但体型较大且力量强。受惊或感受到威胁时可能会咬人，伤口较深但无毒。建议保持安全距离。"
      behavior := "主要在白天活动，是出色的攀爬者。主要以啮齿动物、鸟类和鸟蛋为食，是控制鼠类的天然专家。性情相对温和但会自卫。"
      conservation := "种群相对稳定，是生态系统中重要的掠食者。"
      tips := "对农民和房主有益，能有效控制鼠类。如在建筑物中发现，建议请专业人员安全转移。" }),
   ("西部菱斑响尾蛇",
    { description := "西部菱斑响尾蛇是一种剧毒蛇类，具有标志性的响尾警告系统。是北美西部最危险的蛇类之一。"
      characteristics := "体型粗壮，体长通常在90-150厘米之间。背部有明显的菱形斑纹，颜色从灰色到棕色不等。最显著特征是尾部的角质响环，受威胁时会快速摆动发出响声。"
      habitat := "主要栖息在干旱和半干旱地区：沙漠、草原、岩石地带、灌木丛等。喜欢在岩石缝隙、洞穴中栖息。"
      safety := "⚠️⚠️ 剧毒蛇类！毒液含有血循毒和神经毒素，可致命！遇到立即远离，如被咬立即拨打急救电话并前往最近的医院！"
      behavior := "主要在夜间和黄昏活动，白天在阴凉处休息。受威胁时会抬起前身做出攻击姿态，同时快速摆动尾部发出警告。攻击距离可达体长的2/3。"
      conservation := "种群数量因栖息地丧失而下降，但仍然常见。"
      tips := "🚨 紧急处理：保持冷静，立即远离，不要试图捕捉或杀死。被咬后不要奔跑，立即就医！预防：在其栖息地行走时穿厚靴子，使用手电筒。" })]

/-- Embeds `SnakeKnowledge.get_snake_info` over an explicit table:
`self.knowledge_base.get(snake_name, None)`. -/
def get_snake_info_kb (kb : List (String × SnakeInfo)) (snake_name : String) :
    Option SnakeInfo :=
  kb.lookup snake_name

/-- Embeds `SnakeKnowledge.get_snake_info` (snake_knowledge.py lines 63-65). -/
def get_snake_info (snake_name : String) : Option SnakeInfo :=
  get_snake_info_kb knowledge_base snake_name

/-- Embeds `SnakeKnowledge.get_all_snakes` (snake_knowledge.py lines 67-69):
`list(self.knowledge_base.keys())`. -/
def get_all_snakes : List String := knowledge_base.map Prod.fst

/-- Embeds `SnakeKnowledge.format_snake_info` over an explicit table
(snake_knowledge.py lines 71-104). -/
def format_snake_info_kb (kb : List (String × SnakeInfo)) (snake_name : String) :
    String :=
  match get_snake_info_kb kb snake_name with
  | none => "暂无 " ++ snake_name ++ " 的详细信息。\n\n如果您有相关资料，欢迎提供补充！"
  | some info =>
    let safety_level :=
      if containsSub "剧毒".toList info.safety.toList then "🚨" else "✅"
    pyStrip ("\n" ++ safety_level ++ " **" ++ snake_name ++ "** 详细档案\n\n📖 物种介绍\n" ++
      info.description ++ "\n\n🎯 外观特征 \n" ++ info.characteristics ++
      "\n\n🏠 栖息环境\n" ++ info.habitat ++ "\n\n⚠️ 安全评估\n" ++ info.safety ++
      "\n\n🦎 生活习性\n" ++ info.behavior ++ "\n\n🌍 保护状况\n" ++ info.conservation ++
      "\n\n💡 实用建议\n" ++ info.tips ++ "\n        ")

/-- Embeds `SnakeKnowledge.search_by_keyword` over an explicit table
(snake_knowledge.py lines 106-117): case-folded substring search over
`" ".join(info.values())` and the species name. -/
def search_by_keyword_kb (kb : List (String × SnakeInfo)) (keyword : String) :
    List String :=
  let kw := pyLower keyword
  (kb.filter (fun p =>
    containsSub kw.toList (pyLower (String.intercalate " " (infoValues p.2))).toList
      || containsSub kw.toList (pyLower p.1).toList)).map Prod.fst

/-- Runs `get_snake_info` with the object state threaded explicitly: the method
reads `self.knowledge_base` and never assigns it. -/
def get_snake_info_st (kb : List (String × SnakeInfo)) (snake_name : String) :
    Option SnakeInfo × List (String × SnakeInfo) :=
  (get_snake_info_kb kb snake_name, kb)

/-- Runs `get_all_snakes` with the object state threaded explicitly. -/
def get_all_snakes_st (kb : List (String × SnakeInfo)) :
    List String × List (String × SnakeInfo) :=
  (kb.map Prod.fst, kb)

/-- Runs `format_snake_info` with the object state threaded explicitly. -/
def format_snake_info_st (kb : List (String × SnakeInfo)) (snake_name : String) :
    String × List (String × SnakeInfo) :=
  (format_snake_info_kb kb snake_name, kb)

/-- Runs `search_by_keyword` with the object state threaded explicitly. -/
def search_by_keyword_st (kb : List (String × SnakeInfo)) (keyword : String) :
    List String × List (String × SnakeInfo) :=
  (search_by_keyword_kb kb keyword, kb)

/-! ### `app_4.update_location_manually` (app_4.py lines 146-183) -/

/-- The global `current_location` dict of app_4.py (line 25). -/
structure Location where
  lat : ℚ
  lon : ℚ
  address : String
deriving DecidableEq

/-- The value held by a Gradio `Number` input as the handler sees it: empty
(`None`), a number, or a non-numeric string that `float()` rejects. -/
inductive NumInputVal where
  | null
  | num (q : ℚ)
  | nonNumeric (s : String)
deriving DecidableEq

/-- Embeds `float(x) if x else current` (app_4.py lines 151-152): `None`, `0` and the
empty string are falsy and keep the current coordinate; `float` of a truthy
non-numeric string raises `ValueError`, modelled as `none`. -/
def floatOrKeep (x : NumInputVal) (current : ℚ) : Option ℚ :=
  match x with
  | .null => some current
  | .num q => if q = 0 then some current else some q
  | .nonNumeric s => if s = "" then some current else none

/-- Embeds `app_4.update_location_manually` (app_4.py lines 146-183): the new value
of the global `current_location` and the returned status string (the returned
map plot is framework-owned and out of scope).  A `ValueError` from either
`float()` call lands in the `except ValueError` branch before any global is
assigned. -/
def update_location_manually (loc : Location) (lat_input lon_input : NumInputVal) :
    Location × String :=
  match floatOrKeep lat_input loc.lat, floatOrKeep lon_input loc.lon with
  | some lat, some lon =>
    if ¬(-90 ≤ lat ∧ lat ≤ 90) ∨ ¬(-180 ≤ lon ∧ lon ≤ 180) then
      (loc, "❌ 坐标超出有效范围！纬度: -90到90, 经度: -180到180")
    else
      ({ lat := lat, lon := lon,
         address := "经度: " ++ formatFixed 4 lon ++ ", 纬度: " ++ formatFixed 4 lat },
       "✅ 位置已更新: 纬度 " ++ formatFixed 4 lat ++ ", 经度 " ++ formatFixed 4 lon)
  | _, _ => (loc, "❌ 请输入有效的数字坐标")

/-! ### `app_4.ai_deep_analysis` (app_4.py lines 250-299) -/

/-- The process-global state `ai_deep_analysis` reads: the cached
`current_prediction` (the `top_prediction` dict of the last classification),
the cached `current_knowledge` text, and `current_location`. -/
structure AppState where
  current_prediction : Option Prediction
  current_knowledge : Option String
  current_location : Location
deriving DecidableEq

/-- The early-return message of `ai_deep_analysis` when no prediction is
cached (app_4.py lines 256-268). -/
def noPredictionMsg : String :=
  pyStrip "\n❌ 无法进行深度分析\n\n请先上传蛇类图片进行识别，然后再使用AI深度分析功能。\n\n使用步骤：\n1. 上传蛇类图片\n2. 等待AI识别完成\n3. 确认或调整您的位置坐标\n4. 详细描述您的情况\n5. 点击\"开始AI深度分析\"按钮\n        "

/-- The early-return message of `ai_deep_analysis` when the description is
missing or whitespace-only (app_4.py lines 270-281). -/
def noDescriptionMsg : String :=
  pyStrip "\n❌ 描述信息不足\n\n请在文本框中详细描述您的情况，例如：\n- 遇到蛇的具体环境（花园、森林、水边等）\n- 蛇的行为表现\n- 您的担心和疑问\n- 需要哪方面的建议\n\n这些信息将帮助AI提供更准确的分析建议。\n        "

/-- The outcome of `ai_deep_analysis`: an early return without calling the
chat API, or a call to `analyze_snake_encounter` with the listed arguments
(whose reply the function then wraps into its report). -/
inductive AnalysisOutcome where
  | noCall (msg : String)
  | apiCall (snake_species confidence user_description location knowledge : String)
deriving DecidableEq

/-- Embeds `app_4.ai_deep_analysis` up to the API call (app_4.py lines 250-299): the
two guards and the arguments assembled for `analyze_snake_encounter`, the
global state threaded explicitly (the function assigns no global). -/
def ai_deep_analysis (st : AppState) (user_description : String) :
    AnalysisOutcome × AppState :=
  match st.current_prediction with
  | none => (.noCall noPredictionMsg, st)
  | some pred =>
    if user_description = "" ∨ pyStrip user_description = "" then
      (.noCall noDescriptionMsg, st)
    else
      let location_info := get_user_location (some st.current_location.address)
      let snake_knowledge :=
        match st.current_knowledge with
        | none => "暂无详细知识信息"
        | some s => if s = "" then "暂无详细知识信息" else s
      (.apiCall pred.cls pred.confidence user_description
        location_info.location snake_knowledge, st)

-- Sanity checks: the scanners reproduce the behaviour of each regex pass on
-- concrete inputs, including the seven-hash line that drives claim C3.
example : clean_markdown_output "## 标题x" = "标题x" := by decide
example : clean_markdown_output "**a**b" = "ab" := by decide
example : clean_markdown_output "a*b*c" = "abc" := by decide
example : clean_markdown_output "x```zap```y" = "xy" := by decide
example : clean_markdown_output "a`b`c" = "abc" := by decide
example : clean_markdown_output "[t](u)v" = "tv" := by decide
example : clean_markdown_output "a\n\n\n\nb" = "a\n\nb" := by decide
example : clean_markdown_output "  a  \n  b  " = "a\nb" := by decide
example : clean_markdown_output "#######x" = "#x" := by decide
example : clean_markdown_output "#x" = "x" := by decide
example :
    clean_markdown_output markdownSample =
      "这是标题\n\n这是粗体内容\n\n这是斜体\n\n代码内容\n\n链接" := by decide

/-! ### Helper lemmas -/

lemma toList_append (s t : String) : (s ++ t).toList = s.toList ++ t.toList :=
  String.data_append s t

lemma dropWhile_append_keep (p : Char → Bool) (a : Char) (h : p a = false) :
    ∀ xs : List Char, ∃ ys, (xs ++ [a]).dropWhile p = ys ++ [a] := by
  intro xs
  induction xs with
  | nil => exact ⟨[], by simp [List.dropWhile_cons, h]⟩
  | cons x xs ih =>
    by_cases hx : p x = true
    · rcases ih with ⟨ys, hys⟩
      exact ⟨ys, by simp [List.dropWhile_cons, hx, hys]⟩
    · exact ⟨x :: xs, by simp [List.dropWhile_cons, hx]⟩

lemma stripChars_newline_glyph (l : List Char) :
    ∃ t, stripChars ('\n' :: '❌' :: l) = '❌' :: t := by
  have h1 : List.dropWhile isPySpace ('\n' :: '❌' :: l) = '❌' :: l := by
    rw [List.dropWhile_cons, if_pos (show isPySpace '\n' = true from rfl),
      List.dropWhile_cons, if_neg (show ¬isPySpace '❌' = true from by decide)]
  have h2 : ('❌' :: l).reverse = l.reverse ++ ['❌'] := by
    simp
  rcases dropWhile_append_keep isPySpace '❌' (by decide) l.reverse with ⟨ys, hys⟩
  refine ⟨ys.reverse, ?_⟩
  unfold stripChars
  rw [h1, h2, hys]
  simp

lemma pyStrip_glyph_general (x : String) (h : ∃ l, x.toList = '\n' :: '❌' :: l) :
    "❌".toList <+: (pyStrip x).toList := by
  rcases h with ⟨l, hl⟩
  show "❌".toList <+: stripChars x.toList
  rw [hl]
  rcases stripChars_newline_glyph l with ⟨t, ht⟩
  rw [ht]
  exact ⟨t, rfl⟩

lemma str_infix_extend_right (b w c : String) (h : b.toList <:+: w.toList) :
    b.toList <:+: (w ++ c).toList := by
  rcases h with ⟨s, t, hst⟩
  exact ⟨s, t ++ c.toList, by rw [toList_append, ← hst]; simp⟩

lemma str_infix_append_last (a b : String) : b.toList <:+: (a ++ b).toList :=
  ⟨a.toList, [], by simp [toList_append]⟩

lemma insertDesc_perm (x : ℕ × ℚ) (l : List (ℕ × ℚ)) :
    (insertDesc x l).Perm (x :: l) := by
  induction l with
  | nil => simp [insertDesc]
  | cons y ys ih =>
    simp only [insertDesc]
    split
    · exact List.Perm.refl _
    · exact (List.Perm.cons y ih).trans (List.Perm.swap x y ys)

lemma sortDesc_perm (l : List (ℕ × ℚ)) : (sortDesc l).Perm l := by
  induction l with
  | nil => simp [sortDesc]
  | cons x xs ih =>
    exact (insertDesc_perm x (sortDesc xs)).trans (List.Perm.cons x ih)

lemma mem_insertDesc {a x : ℕ × ℚ} {l : List (ℕ × ℚ)} (h : a ∈ insertDesc x l) :
    a = x ∨ a ∈ l := by
  have := (insertDesc_perm x l).mem_iff.mp h
  simpa using this

lemma pairwise_insertDesc {x : ℕ × ℚ} {l : List (ℕ × ℚ)}
    (h : List.Pairwise (fun a b => b.2 ≤ a.2) l) :
    List.Pairwise (fun a b => b.2 ≤ a.2) (insertDesc x l) := by
  induction l with
  | nil => simp [insertDesc]
  | cons y ys ih =>
    rcases List.pairwise_cons.mp h with ⟨hy, hys⟩
    simp only [insertDesc]
    split
    · rename_i hc
      refine List.Pairwise.cons ?_ h
      intro b hb
      rcases List.mem_cons.mp hb with rfl | hb
      · exact hc
      · exact le_trans (hy b hb) hc
    · rename_i hc
      refine List.Pairwise.cons ?_ (ih hys)
      intro b hb
      rcases mem_insertDesc hb with rfl | hb
      · exact le_of_not_le hc
      · exact hy b hb

lemma sortDesc_pairwise (l : List (ℕ × ℚ)) :
    List.Pairwise (fun a b => b.2 ≤ a.2) (sortDesc l) := by
  induction l with
  | nil => simp [sortDesc]
  | cons x xs ih => exact pairwise_insertDesc ih

lemma indexed_length (l : List ℚ) : ∀ i, (indexed i l).length = l.length := by
  induction l with
  | nil => intro i; simp [indexed]
  | cons q qs ih => intro i; simp [indexed, ih]

lemma indexed_get (l : List ℚ) :
    ∀ i e, e ∈ indexed i l → i ≤ e.1 ∧ l.get? (e.1 - i) = some e.2 := by
  induction l with
  | nil => intro i e he; simp [indexed] at he
  | cons q qs ih =>
    intro i e he
    simp only [indexed, List.mem_cons] at he
    rcases he with rfl | he
    · simp
    · obtain ⟨hle, hget⟩ := ih (i + 1) e he
      refine ⟨by omega, ?_⟩
      have hd : e.1 - i = (e.1 - (i + 1)) + 1 := by omega
      rw [hd, List.get?_cons_succ]
      exact hget

lemma pctString_shape (q : ℚ) :
    ∃ pre s2, pctString q = pre ++ "." ++ s2 ++ "%" ∧ s2.length = 2 := by
  refine ⟨(if roundHalfEven (q * 100 * (10 : ℚ) ^ 2) < 0 then "-" else "") ++
    toString ((roundHalfEven (q * 100 * (10 : ℚ) ^ 2)).natAbs / 10 ^ 2),
    String.mk (fracDigits 2 (roundHalfEven (q * 100 * (10 : ℚ) ^ 2)).natAbs),
    rfl, rfl⟩

lemma lookup_isSome_iff (l : List (String × SnakeInfo)) (n : String) :
    (l.lookup n).isSome ↔ n ∈ l.map Prod.fst := by
  induction l with
  | nil => simp [List.lookup]
  | cons p t ih =>
    obtain ⟨k, v⟩ := p
    by_cases hk : n = k
    · subst hk
      simp [List.lookup]
    · have hbk : (n == k) = false := beq_false_of_ne hk
      simp [List.lookup, hbk, ih, hk]

/-! ### Claim theorems -/

/-- C1: for every successful `predict_image` run (the probability vector
being the softmax distribution the forward pass produced) and every `top_k`
between 1 and the number of classes, `all_predictions` lists exactly the
`top_k` entries of highest softmax probability in non-increasing probability
order, each class label paired with its probability rendered as a two-decimal
percentage string with a trailing `%`, and `top_prediction` equals the first
element of that list. -/
theorem predict_image_topk (class_names : List String) (image_path : String)
    (probs : List ℚ) (top_k : ℕ) (h1 : 1 ≤ top_k) (h2 : top_k ≤ probs.length) :
    PredictSpec class_names image_path probs top_k := by
  have hperm := sortDesc_perm (indexed 0 probs)
  have hpair := sortDesc_pairwise (indexed 0 probs)
  have hlen : (sortDesc (indexed 0 probs)).length = probs.length :=
    hperm.length_eq.trans (indexed_length probs 0)
  have hlen_take : ((sortDesc (indexed 0 probs)).take top_k).length = top_k := by
    rw [List.length_take]; omega
  refine ⟨rfl, ?_, hperm, hpair, ?_, ?_, ?_, ?_⟩
  · show ((topkPairs probs top_k).map (mkPrediction class_names)).length = top_k
    rw [List.length_map]; exact hlen_take
  · intro a ha b hb
    have hsplit : (sortDesc (indexed 0 probs)).take top_k ++
        (sortDesc (indexed 0 probs)).drop top_k = sortDesc (indexed 0 probs) :=
      List.take_append_drop top_k _
    have hp := hpair
    rw [← hsplit] at hp
    exact (List.pairwise_append.mp hp).2.2 a ha b hb
  · intro e he
    have hmem : e ∈ sortDesc (indexed 0 probs) := List.take_subset _ _ he
    have hmem2 : e ∈ indexed 0 probs := hperm.mem_iff.mp hmem
    have h := (indexed_get probs 0 e hmem2).2
    simpa using h
  · intro p hp
    rcases List.mem_map.mp hp with ⟨e, _, rfl⟩
    exact pctString_shape e.2
  · have hne : (sortDesc (indexed 0 probs)).take top_k ≠ [] :=
      List.ne_nil_of_length_pos (by omega)
    rcases List.exists_cons_of_ne_nil hne with ⟨hd, tl, heq⟩
    refine ⟨mkPrediction class_names hd, tl.map (mkPrediction class_names), ?_, ?_⟩
    · show (topkPairs probs top_k).map (mkPrediction class_names) = _
      rw [show topkPairs probs top_k = hd :: tl from heq, List.map_cons]
    · show mkPrediction class_names ((topkPairs probs top_k).headD (0, 0)) = _
      rw [show topkPairs probs top_k = hd :: tl from heq]
      rfl

/-- C1 witness: the specification holds at the app's own class names, a
concrete five-class distribution and `top_k = 3`. -/
theorem predict_image_topk_witness :
    PredictSpec ["北方水蛇", "普通袜带蛇", "德凯棕蛇", "黑鼠蛇", "西部菱斑响尾蛇"]
      "temp_prediction.jpg"
      [mkRat 1 10, mkRat 3 10, mkRat 2 5, mkRat 1 10, mkRat 1 10] 3 :=
  predict_image_topk _ _ _ _ (by decide) (by decide)

/-- C2 counterexample: the `except Exception` clause of
`SnakePredictor.predict_image` returns a dict, not a string prefixed with the
error glyph, so the claim that every failure path returns a glyph-prefixed
string is false at this concrete failure. -/
theorem predict_image_error_not_glyph_string :
    ¬ IsGlyphStr (predict_image_except_result "temp_prediction.jpg" "boom") :=
  fun h => h

/-- C2 amended: every `except` clause of `AIAnalyzer.deepseek_chat` and the
`except Exception` clause of `app_4.ai_deep_analysis` return a user-facing
string prefixed with the error glyph `❌`, while the `except Exception`
clause of `SnakePredictor.predict_image` instead returns a dict with the
keys `image_path` and `error` (no glyph, not a string). -/
theorem failure_path_shapes (e image_path : String) :
    IsGlyphStr (deepseek_chat_reqexc_result e) ∧
    IsGlyphStr (deepseek_chat_jsonexc_result e) ∧
    IsGlyphStr (deepseek_chat_exc_result e) ∧
    IsGlyphStr (ai_deep_analysis_except_result e) ∧
    predict_image_except_result image_path e =
      PyData.pdict [("image_path", image_path), ("error", e)] := by
  refine ⟨?_, ?_, ?_, ?_, rfl⟩
  · show "❌".toList <+: ("❌ 网络请求错误: " ++ e).toList
    rw [show ("❌ 网络请求错误: " : String) = "❌" ++ " 网络请求错误: " from by decide,
      toList_append, toList_append, List.append_assoc]
    exact List.prefix_append _ _
  · show "❌".toList <+: ("❌ JSON解析错误: " ++ e).toList
    rw [show ("❌ JSON解析错误: " : String) = "❌" ++ " JSON解析错误: " from by decide,
      toList_append, toList_append, List.append_assoc]
    exact List.prefix_append _ _
  · show "❌".toList <+: ("❌ 未知错误: " ++ e).toList
    rw [show ("❌ 未知错误: " : String) = "❌" ++ " 未知错误: " from by decide,
      toList_append, toList_append, List.append_assoc]
    exact List.prefix_append _ _
  · apply pyStrip_glyph_general
    rw [toList_append, toList_append]
    exact ⟨_, rfl⟩

/-- C3 counterexample: `clean_markdown_output` is not idempotent.  On a line
of seven `#`, one pass removes only six (the regex matches `#{1,6}`), so a
second pass removes the seventh. -/
theorem clean_markdown_output_not_idempotent :
    clean_markdown_output (clean_markdown_output "#######x") ≠
      clean_markdown_output "#######x" := by decide

/-- C3 amended: `clean_markdown_output` is idempotent on the fixed sample
string of `test_analyzer`, as the specification states, though not on every
input string. -/
theorem clean_markdown_output_idempotent_on_sample :
    clean_markdown_output (clean_markdown_output markdownSample) =
      clean_markdown_output markdownSample := by decide

/-- C4: on the fixed sample string containing heading, bold, italic, fenced
and inline code, and link markers, the output of `clean_markdown_output`
contains none of the marker characters `#`, `*`, `` ` ``, `[`, `]`, `(`,
`)` — hence none of the heading/bold/italic/code/link marker tokens. -/
theorem clean_markdown_sample_no_markers :
    ((clean_markdown_output markdownSample).toList.all fun c =>
      !(c == '#' || c == '*' || c == '`' || c == '[' || c == ']' ||
        c == '(' || c == ')')) = true := by decide

/-- C5: the softmax distribution computed inside `predict_image` sums to
exactly 1, for every (nonempty) forward-pass output vector. -/
theorem softmax_sums_to_one (l : List ℝ) (h : l ≠ []) : (softmax l).sum = 1 := by
  have hpos : 0 < (l.map Real.exp).sum := by
    apply List.sum_pos
    · intro x hx
      rcases List.mem_map.mp hx with ⟨y, _, rfl⟩
      exact Real.exp_pos y
    · simpa using h
  unfold softmax
  rw [show (fun x => Real.exp x / (l.map Real.exp).sum) =
      fun x => Real.exp x * ((l.map Real.exp).sum)⁻¹ from by
    funext x; rw [div_eq_mul_inv]]
  rw [List.sum_map_mul_right]
  exact mul_inv_cancel₀ (ne_of_gt hpos)

/-- C5 witness: the softmax of the one-element score vector `[0]` sums to 1. -/
theorem softmax_sums_to_one_witness : (softmax [(0 : ℝ)]).sum = 1 :=
  softmax_sums_to_one [(0 : ℝ)] (by simp)

/-- C6: the prompt `analyze_snake_encounter` passes to `deepseek_chat` is the
fixed template with the inputs interpolated: the species, the confidence, the
user description, the `location` value of the location dict, and the
knowledge text each occur verbatim as substrings. -/
theorem analysis_prompt_contains_inputs
    (snake_species confidence user_description : String)
    (location_info : LocationInfo) (snake_knowledge : String) :
    snake_species.toList <:+:
      (analysis_prompt snake_species confidence user_description
        location_info snake_knowledge).toList ∧
    confidence.toList <:+:
      (analysis_prompt snake_species confidence user_description
        location_info snake_knowledge).toList ∧
    user_description.toList <:+:
      (analysis_prompt snake_species confidence user_description
        location_info snake_knowledge).toList ∧
    location_info.location.toList <:+:
      (analysis_prompt snake_species confidence user_description
        location_info snake_knowledge).toList ∧
    snake_knowledge.toList <:+:
      (analysis_prompt snake_species confidence user_description
        location_info snake_knowledge).toList := by
  unfold analysis_prompt
  refine ⟨?_, ?_, ?_, ?_, ?_⟩
  · iterate 11 apply str_infix_extend_right
    exact str_infix_append_last _ _
  · iterate 9 apply str_infix_extend_right
    exact str_infix_append_last _ _
  · iterate 3 apply str_infix_extend_right
    exact str_infix_append_last _ _
  · iterate 7 apply str_infix_extend_right
    exact str_infix_append_last _ _
  · iterate 1 apply str_infix_extend_right
    exact str_infix_append_last _ _

/-- C7: the knowledge base maps species names — unique string keys — to
records of exactly the seven text fields (the `SnakeInfo` structure:
description, characteristics, habitat, safety, behavior, conservation,
tips): every name listed by `get_all_snakes` is mapped by `get_snake_info`
to such a record, and every name not listed is mapped to `none`. -/
theorem get_snake_info_keys (snake_name : String) :
    get_all_snakes.Nodup ∧
    (snake_name ∈ get_all_snakes →
      ∃ info : SnakeInfo, get_snake_info snake_name = some info) ∧
    (snake_name ∉ get_all_snakes → get_snake_info snake_name = none) := by
  refine ⟨by decide, ?_, ?_⟩
  · intro hmem
    have h : (get_snake_info snake_name).isSome :=
      (lookup_isSome_iff knowledge_base snake_name).mpr hmem
    exact Option.isSome_iff_exists.mp h
  · intro hmem
    have h : ¬(get_snake_info snake_name).isSome :=
      fun hs => hmem ((lookup_isSome_iff knowledge_base snake_name).mp hs)
    exact Option.not_isSome_iff_eq_none.mp h

/-- C7 witness: a listed species is mapped to a record, an unlisted one to
`none`. -/
theorem get_snake_info_keys_witness :
    (∃ info : SnakeInfo, get_snake_info "北方水蛇" = some info) ∧
      get_snake_info "眼镜蛇" = none :=
  ⟨(get_snake_info_keys "北方水蛇").2.1 (by decide),
   (get_snake_info_keys "眼镜蛇").2.2 (by decide)⟩

/-- C8: the knowledge base is read-only after construction — each of the four
operations of `SnakeKnowledge`, run on any table state and any argument,
returns the table state unchanged (none of the method bodies assigns
`self.knowledge_base`). -/
theorem knowledge_ops_pure (kb : List (String × SnakeInfo))
    (snake_name keyword : String) :
    (get_snake_info_st kb snake_name).2 = kb ∧
    (get_all_snakes_st kb).2 = kb ∧
    (format_snake_info_st kb snake_name).2 = kb ∧
    (search_by_keyword_st kb keyword).2 = kb :=
  ⟨rfl, rfl, rfl, rfl⟩

/-- C9: `update_location_manually` is atomic on invalid input.  If either
coordinate parses outside its range, or `float()` raises, the global
`current_location` is returned unchanged together with a `❌`-prefixed error
status; and whenever the location changes at all, both coordinates parsed
and lie within range and the new location carries exactly them. -/
theorem update_location_manually_atomic (loc : Location)
    (lat_input lon_input : NumInputVal) :
    (∀ lat lon, floatOrKeep lat_input loc.lat = some lat →
        floatOrKeep lon_input loc.lon = some lon →
        (lat < -90 ∨ 90 < lat ∨ lon < -180 ∨ 180 < lon) →
        (update_location_manually loc lat_input lon_input).1 = loc ∧
          "❌".toList <+:
            (update_location_manually loc lat_input lon_input).2.toList) ∧
    ((floatOrKeep lat_input loc.lat = none ∨
        floatOrKeep lon_input loc.lon = none) →
        (update_location_manually loc lat_input lon_input).1 = loc ∧
          "❌".toList <+:
            (update_location_manually loc lat_input lon_input).2.toList) ∧
    ((update_location_manually loc lat_input lon_input).1 ≠ loc →
        ∃ lat lon, floatOrKeep lat_input loc.lat = some lat ∧
          floatOrKeep lon_input loc.lon = some lon ∧
          -90 ≤ lat ∧ lat ≤ 90 ∧ -180 ≤ lon ∧ lon ≤ 180 ∧
          (update_location_manually loc lat_input lon_input).1.lat = lat ∧
          (update_location_manually loc lat_input lon_input).1.lon = lon) := by
  rcases hla : floatOrKeep lat_input loc.lat with _ | lat
  · have hres : update_location_manually loc lat_input lon_input =
        (loc, "❌ 请输入有效的数字坐标") := by
      unfold update_location_manually
      rw [hla]
    refine ⟨?_, ?_, ?_⟩
    · intro lat lon h1
      cases h1
    · intro _
      rw [hres]
      refine ⟨rfl, ?_⟩
      show "❌".toList <+: ("❌ 请输入有效的数字坐标" : String).toList
      decide
    · intro hne
      rw [hres] at hne
      simp at hne
  · rcases hlo : floatOrKeep lon_input loc.lon with _ | lon
    · have hres : update_location_manually loc lat_input lon_input =
          (loc, "❌ 请输入有效的数字坐标") := by
        unfold update_location_manually
        rw [hla, hlo]
      refine ⟨?_, ?_, ?_⟩
      · intro lat' lon' h1 h2
        cases h2
      · intro _
        rw [hres]
        refine ⟨rfl, ?_⟩
        show "❌".toList <+: ("❌ 请输入有效的数字坐标" : String).toList
        decide
      · intro hne
        rw [hres] at hne
        simp at hne
    · by_cases hr : ¬(-90 ≤ lat ∧ lat ≤ 90) ∨ ¬(-180 ≤ lon ∧ lon ≤ 180)
      · have hres : update_location_manually loc lat_input lon_input =
            (loc, "❌ 坐标超出有效范围！纬度: -90到90, 经度: -180到180") := by
          unfold update_location_manually
          rw [hla, hlo]
          exact if_pos hr
        refine ⟨?_, ?_, ?_⟩
        · intro lat' lon' h1 h2 _
          rw [hres]
          refine ⟨rfl, ?_⟩
          show "❌".toList <+:
            ("❌ 坐标超出有效范围！纬度: -90到90, 经度: -180到180" : String).toList
          decide
        · intro h
          rcases h with h | h
          · cases h
          · cases h
        · intro hne
          rw [hres] at hne
          simp at hne
      · rw [not_or, not_not, not_not] at hr
        obtain ⟨⟨hA1, hA2⟩, hB1, hB2⟩ := hr
        have hres : update_location_manually loc lat_input lon_input =
            ({ lat := lat, lon := lon,
               address := "经度: " ++ formatFixed 4 lon ++ ", 纬度: " ++
                 formatFixed 4 lat },
             "✅ 位置已更新: 纬度 " ++ formatFixed 4 lat ++ ", 经度 " ++
               formatFixed 4 lon) := by
          unfold update_location_manually
          rw [hla, hlo]
          exact if_neg (by rw [not_or, not_not, not_not]; exact ⟨⟨hA1, hA2⟩, hB1, hB2⟩)
        refine ⟨?_, ?_, ?_⟩
        · intro lat' lon' h1 h2 hout
          cases h1
          cases h2
          rcases hout with h | h | h | h
          · exact absurd hA1 (not_le.mpr h)
          · exact absurd hA2 (not_le.mpr h)
          · exact absurd hB1 (not_le.mpr h)
          · exact absurd hB2 (not_le.mpr h)
        · intro h
          rcases h with h | h
          · cases h
          · cases h
        · intro _
          exact ⟨lat, lon, rfl, rfl, hA1, hA2, hB1, hB2, by rw [hres], by rw [hres]⟩

/-- C9 witness: an out-of-range latitude (91) leaves the location unchanged
and yields a `❌` status (the empty longitude box keeps the current value). -/
theorem update_location_manually_atomic_witness :
    (update_location_manually ⟨40, 116, "北京市"⟩ (NumInputVal.num 91)
      NumInputVal.null).1 = ⟨40, 116, "北京市"⟩ ∧
    "❌".toList <+:
      (update_location_manually ⟨40, 116, "北京市"⟩ (NumInputVal.num 91)
        NumInputVal.null).2.toList :=
  (update_location_manually_atomic ⟨40, 116, "北京市"⟩ (NumInputVal.num 91)
    NumInputVal.null).1 91 116 (by decide) rfl (by decide)

/-- C10: `ai_deep_analysis` reaches the chat API only when a prediction is
cached and the description is not blank.  If `current_prediction` is `None`
or the description strips to the empty string, the function returns one of
its two fixed instruction messages, makes no `analyze_snake_encounter` call
(the `noCall` outcome) and leaves the global state unchanged. -/
theorem ai_deep_analysis_guard (st : AppState) (user_description : String)
    (h : st.current_prediction = none ∨ pyStrip user_description = "") :
    ∃ msg, ai_deep_analysis st user_description =
        (AnalysisOutcome.noCall msg, st) ∧
      (msg = noPredictionMsg ∨ msg = noDescriptionMsg) := by
  cases hp : st.current_prediction with
  | none =>
    refine ⟨noPredictionMsg, ?_, Or.inl rfl⟩
    unfold ai_deep_analysis
    rw [hp]
  | some pred =>
    rcases h with h | h
    · rw [hp] at h
      cases h
    · refine ⟨noDescriptionMsg, ?_, Or.inr rfl⟩
      unfold ai_deep_analysis
      rw [hp]
      simp [h]

/-- C10 witness: with no cached prediction the function returns a fixed
instruction message and an unchanged state. -/
theorem ai_deep_analysis_guard_witness :
    ∃ msg, ai_deep_analysis ⟨none, none, ⟨40, 116, "北京市"⟩⟩ "院子里有蛇" =
        (AnalysisOutcome.noCall msg, ⟨none, none, ⟨40, 116, "北京市"⟩⟩) ∧
      (msg = noPredictionMsg ∨ msg = noDescriptionMsg) :=
  ai_deep_analysis_guard ⟨none, none, ⟨40, 116, "北京市"⟩⟩ "院子里有蛇" (Or.inl rfl)
